import Mathlib

/-!
Shallow embedding of the responsive auto-hide navigation controller in
`src/js/navbar.js` (and the competing `toggleSidebar` in `src/js/common.js`)
of the German-for-Hindi-users website.

The browser world is modelled explicitly: the cached DOM elements become
`Option` records of the CSS classes and ARIA attributes the code touches,
`window.scrollY` / `window.innerWidth` are ambient fields of a `World`
record, and each `setTimeout` becomes an explicitly recorded pending timer
that a separate event fires.  Every handler of the source becomes a pure
function `World → World`, and user/timer activity is a list of `Event`s
folded over the state.
-/

/-- The `CONFIG` constant of navbar.js (lines 24-38). -/
structure Config where
  scrollThreshold : Nat
  scrollDelta : Nat
  topThreshold : Nat
  autoHideDelay : Nat
  showDelay : Nat
  throttleDelay : Nat
  scrollingTimeout : Nat
  transitionDuration : Nat
deriving DecidableEq

/-- The literal configuration values of the source. -/
def CONFIG : Config :=
  { scrollThreshold := 100
    scrollDelta := 10
    topThreshold := 50
    autoHideDelay := 150
    showDelay := 0
    throttleDelay := 16
    scrollingTimeout := 150
    transitionDuration := 300 }

/-- The `.sidebar-toggle` button: the CSS classes and attributes navbar.js
reads or writes on it. `icon` stands for the innerHTML icon span. -/
structure ToggleEl where
  autoHidden : Bool
  isScrollingCls : Bool
  ariaExpanded : Option String
  icon : String
deriving DecidableEq

/-- The `#sidebar` element: classes `open`/`visible` and `aria-hidden`. -/
structure SidebarEl where
  openCls : Bool
  visibleCls : Bool
  ariaHidden : Option String
deriving DecidableEq

/-- The `.sidebar-overlay` element: class `active`. -/
structure OverlayEl where
  activeCls : Bool
deriving DecidableEq

/-- `document.body`: class `nav-open`. -/
structure BodyEl where
  navOpen : Bool
deriving DecidableEq

/-- Which element currently holds focus (`document.activeElement`). -/
inductive FocusTarget where
  | toggle
  | navItem (i : Nat)
  | other
deriving DecidableEq

/-- The cached `elements` record (navbar.js lines 61-69); each element may be
absent, and `navItemsCount` is the length of the `.sidebar-nav-item` list. -/
structure Dom where
  toggle : Option ToggleEl
  sidebar : Option SidebarEl
  overlay : Option OverlayEl
  body : Option BodyEl
  navItemsCount : Nat
  focused : FocusTarget
deriving DecidableEq

def mapToggle (f : ToggleEl → ToggleEl) (d : Dom) : Dom :=
  { d with toggle := d.toggle.map f }

def mapSidebar (f : SidebarEl → SidebarEl) (d : Dom) : Dom :=
  { d with sidebar := d.sidebar.map f }

def mapOverlay (f : OverlayEl → OverlayEl) (d : Dom) : Dom :=
  { d with overlay := d.overlay.map f }

def mapBody (f : BodyEl → BodyEl) (d : Dom) : Dom :=
  { d with body := d.body.map f }

def setFocus (t : FocusTarget) (d : Dom) : Dom :=
  { d with focused := t }

/-- The mutable `state` object of navbar.js (lines 43-54).  Timers are kept
as the delay they were scheduled with: `hideTimer` is the single cancellable
handle stored in `state.hideTimer`; `showTimers` / `focusTimers` collect the
anonymous (uncancellable) timeouts created by `showToggle` with a positive
delay and by `openMenu`'s focus timeout. -/
structure NavState where
  lastScrollY : Nat
  menuOpen : Bool
  scrollPosition : Nat
  prefersReducedMotion : Bool
  isScrolling : Bool
  scrollingTimer : Option Nat
  hideTimer : Option Nat
  showTimers : List Nat
  focusTimers : List Nat
deriving DecidableEq

/-- The whole modelled browser state: configuration, controller state, DOM,
and the ambient `window.scrollY` / `window.innerWidth`. -/
structure World where
  cfg : Config
  nav : NavState
  dom : Dom
  scrollY : Nat
  innerWidth : Nat
deriving DecidableEq

/-- `isDesktop` (line 88): `window.innerWidth >= 1025`. -/
def isDesktop (w : World) : Bool := 1025 ≤ w.innerWidth

/-- `setScrollingState` (lines 116-127): maintains the `is-scrolling` class
on the toggle, skipped when the toggle is absent or reduced motion is on. -/
def setScrollingState (flag : Bool) (w : World) : World :=
  if w.dom.toggle.isNone || w.nav.prefersReducedMotion then w
  else if flag && !w.nav.isScrolling then
    { w with nav := { w.nav with isScrolling := true }
             dom := mapToggle (fun t => { t with isScrollingCls := true }) w.dom }
  else if !flag && w.nav.isScrolling then
    { w with nav := { w.nav with isScrolling := false }
             dom := mapToggle (fun t => { t with isScrollingCls := false }) w.dom }
  else w

/-- `handleScrollEnd` (lines 129-139): clears and re-arms the scroll-end
timer with `CONFIG.scrollingTimeout`. -/
def handleScrollEnd (w : World) : World :=
  { w with nav := { w.nav with scrollingTimer := some w.cfg.scrollingTimeout } }

/-- `cancelHideTimer` (lines 183-188). -/
def cancelHideTimer (w : World) : World :=
  { w with nav := { w.nav with hideTimer := none } }

/-- `showToggle(delay)` (lines 190-203).  Note the toggle-absence guard comes
before the hide-timer cancellation, exactly as in the source. -/
def showToggle (delay : Nat) (w : World) : World :=
  if w.dom.toggle.isNone then w
  else
    let w1 := cancelHideTimer w
    if 0 < delay && !w1.nav.prefersReducedMotion then
      { w1 with nav := { w1.nav with showTimers := w1.nav.showTimers ++ [delay] } }
    else
      { w1 with dom := mapToggle (fun t => { t with autoHidden := false }) w1.dom }

/-- `hideToggleWithDelay` (lines 205-224): no-op when the toggle is absent or
the menu is open; immediate hide under reduced motion or a zero delay;
otherwise arms `state.hideTimer` with `CONFIG.autoHideDelay`. -/
def hideToggleWithDelay (w : World) : World :=
  if w.dom.toggle.isNone || w.nav.menuOpen then w
  else
    let w1 := cancelHideTimer w
    if w1.nav.prefersReducedMotion || w1.cfg.autoHideDelay == 0 then
      { w1 with dom := mapToggle (fun t => { t with autoHidden := true }) w1.dom }
    else
      { w1 with nav := { w1.nav with hideTimer := some w1.cfg.autoHideDelay } }

/-- `handleScroll` (lines 145-181): the per-evaluation auto-hide state
machine.  The scroll delta is the signed difference between the current
`window.scrollY` and `state.lastScrollY`. -/
def handleScroll (w : World) : World :=
  let currentScrollY := w.scrollY
  if isDesktop w || w.dom.toggle.isNone then w
  else
    let w1 := handleScrollEnd (setScrollingState true w)
    if w1.nav.menuOpen then
      { w1 with nav := { w1.nav with lastScrollY := currentScrollY } }
    else
      let delta : Int := (currentScrollY : Int) - (w1.nav.lastScrollY : Int)
      let w2 :=
        if currentScrollY < w1.cfg.topThreshold then
          showToggle 0 (cancelHideTimer w1)
        else if (w1.cfg.scrollDelta : Int) < delta
                && w1.cfg.scrollThreshold < currentScrollY then
          hideToggleWithDelay w1
        else if delta < -(w1.cfg.scrollDelta : Int) then
          showToggle w1.cfg.showDelay (cancelHideTimer w1)
        else w1
      { w2 with nav := { w2.nav with lastScrollY := currentScrollY } }

/-- `openMenu` (lines 240-269): records the open state and scroll offset,
writes ARIA attributes and classes, forces the toggle visible through
`showToggle()`, and schedules the focus move after `transitionDuration`. -/
def openMenu (w : World) : World :=
  let w1 := { w with nav := { w.nav with menuOpen := true, scrollPosition := w.scrollY } }
  let d1 := mapToggle (fun t => { t with ariaExpanded := some "true" }) w1.dom
  let d2 := mapSidebar
    (fun s => { s with ariaHidden := some "false", openCls := true, visibleCls := true }) d1
  let d3 := mapOverlay (fun o => { o with activeCls := true }) d2
  let d4 := mapBody (fun b => { b with navOpen := true }) d3
  let d5 := mapToggle (fun t => { t with icon := "✕" }) d4
  let w2 := showToggle 0 { w1 with dom := d5 }
  { w2 with nav := { w2.nav with focusTimers := w2.nav.focusTimers ++ [w2.cfg.transitionDuration] } }

/-- `closeMenu` (lines 271-295): clears the open state, writes ARIA
attributes and classes, restores the saved scroll offset via
`window.scrollTo`, and returns focus to the toggle when it exists. -/
def closeMenu (w : World) : World :=
  let w1 := { w with nav := { w.nav with menuOpen := false } }
  let d1 := mapToggle (fun t => { t with ariaExpanded := some "false", icon := "☰" }) w1.dom
  let d2 := mapSidebar
    (fun s => { s with ariaHidden := some "true", openCls := false, visibleCls := false }) d1
  let d3 := mapOverlay (fun o => { o with activeCls := false }) d2
  let d4 := mapBody (fun b => { b with navOpen := false }) d3
  let d5 := if d4.toggle.isSome then setFocus .toggle d4 else d4
  { w1 with dom := d5, scrollY := w1.nav.scrollPosition }

/-- `toggleMenu` (lines 297-306), also exported as `window.toggleSidebar`. -/
def toggleMenu (w : World) : World :=
  if isDesktop w then w
  else if w.nav.menuOpen then closeMenu w else openMenu w

/-- The key argument of a keydown event, restricted to the keys the handler
distinguishes. -/
inductive Key where
  | escape
  | tab
  | otherKey
deriving DecidableEq

/-- JS `focusableItems[0]` in `handleKeydown`, i.e. the (possibly null)
toggle element of `[toggle, ...navItems]`. -/
def firstFocusable (d : Dom) : Option FocusTarget :=
  if d.toggle.isSome then some .toggle else none

/-- JS last element of `[toggle, ...navItems]`: the last nav item when any
exist, otherwise the (possibly null) toggle. -/
def lastFocusable (d : Dom) : Option FocusTarget :=
  if d.navItemsCount == 0 then firstFocusable d
  else some (.navItem (d.navItemsCount - 1))

/-- `document.activeElement === item`: a null item compares equal to no
active element. -/
def focusedEq (d : Dom) (item : Option FocusTarget) : Bool :=
  match item with
  | some t => d.focused == t
  | none => false

/-- Modelled from the spec: the default (unprevented) Tab move of the
browser over the page's focus order.  The HTML documents of the repository
are not under src/, so the focus order around the sidebar is taken from the
spec's keyboard-trap description ("Tab cycling is constrained to the toggle
control plus the navigable items"): the navigable items immediately follow
the toggle in document order, with no other focusable element between them;
focus anywhere else, or past either end, lands outside the trap set. -/
def defaultTabMove (shift : Bool) (d : Dom) : Dom :=
  match d.focused with
  | .toggle =>
      if shift then setFocus .other d
      else if 0 < d.navItemsCount then setFocus (.navItem 0) d else setFocus .other d
  | .navItem i =>
      if shift then
        if i = 0 then
          (if d.toggle.isSome then setFocus .toggle d else setFocus .other d)
        else setFocus (.navItem (i - 1)) d
      else
        if i + 1 < d.navItemsCount then setFocus (.navItem (i + 1)) d
        else setFocus .other d
  | .other => setFocus .other d

/-- `handleKeydown` (lines 314-336).  Returns the new world and whether the
handler called `preventDefault`. -/
def handleKeydown (k : Key) (shift : Bool) (w : World) : World × Bool :=
  match k with
  | .escape => if w.nav.menuOpen then (closeMenu w, false) else (w, false)
  | .tab =>
      if w.nav.menuOpen then
        let first := firstFocusable w.dom
        let last := lastFocusable w.dom
        if shift && focusedEq w.dom first then
          (match last with
           | some t => ({ w with dom := setFocus t w.dom }, true)
           | none => (w, true))
        else if !shift && focusedEq w.dom last then
          (match first with
           | some t => ({ w with dom := setFocus t w.dom }, true)
           | none => (w, true))
        else (w, false)
      else (w, false)
  | .otherKey => (w, false)

/-- A keydown event end-to-end: the handler runs, and when it did not
prevent the default a Tab key additionally performs the browser's default
focus move. -/
def keydownStep (k : Key) (shift : Bool) (w : World) : World :=
  let p := handleKeydown k shift w
  if k == Key.tab && !p.2 then { p.1 with dom := defaultTabMove shift p.1.dom }
  else p.1

/-- `handleResize` (lines 358-380): on desktop width a hard reset of menu
and hide state; on mobile width a class/attribute cleanup when closed. -/
def handleResize (w : World) : World :=
  if isDesktop w then
    let w1 := { w with nav := { w.nav with menuOpen := false } }
    let d1 := mapSidebar (fun s => { s with openCls := false, visibleCls := false }) w1.dom
    let d2 := mapOverlay (fun o => { o with activeCls := false }) d1
    let d3 := mapBody (fun b => { b with navOpen := false }) d2
    let d4 := mapToggle
      (fun t => { t with autoHidden := false, ariaExpanded := some "false", icon := "☰" }) d3
    { w1 with dom := d4 }
  else
    if !w.nav.menuOpen then
      let f : SidebarEl → SidebarEl :=
        fun s => { s with openCls := false, visibleCls := false, ariaHidden := some "true" }
      { w with dom := mapSidebar f w.dom }
    else w

/-- `handleOrientationChange` (lines 341-353): force-close when open, then
re-baseline `state.lastScrollY` from the (possibly restored) scroll. -/
def handleOrientationChange (w : World) : World :=
  let w1 := if w.nav.menuOpen then closeMenu w else w
  { w1 with nav := { w1.nav with lastScrollY := w1.scrollY } }

/-- The `state.hideTimer` callback firing (lines 219-223): consumes the
pending timer and adds `auto-hidden` unless the menu is open. -/
def fireHideTimer (w : World) : World :=
  if w.nav.hideTimer.isSome then
    let w1 := { w with nav := { w.nav with hideTimer := none } }
    if w1.nav.menuOpen then w1
    else { w1 with dom := mapToggle (fun t => { t with autoHidden := true }) w1.dom }
  else w

/-- A delayed `showToggle` callback firing (lines 197-199): removes
`auto-hidden` unconditionally. -/
def fireShowTimer (w : World) : World :=
  if w.nav.showTimers.isEmpty then w
  else
    { w with nav := { w.nav with showTimers := w.nav.showTimers.tail }
             dom := mapToggle (fun t => { t with autoHidden := false }) w.dom }

/-- The `openMenu` focus timeout firing (lines 266-268):
`elements.navItems[0]?.focus()`. -/
def fireFocusTimer (w : World) : World :=
  if w.nav.focusTimers.isEmpty then w
  else
    let w1 := { w with nav := { w.nav with focusTimers := w.nav.focusTimers.tail } }
    if 0 < w1.dom.navItemsCount then { w1 with dom := setFocus (.navItem 0) w1.dom } else w1

/-- The scroll-end timer firing (lines 136-138). -/
def fireScrollingTimer (w : World) : World :=
  if w.nav.scrollingTimer.isSome then
    setScrollingState false { w with nav := { w.nav with scrollingTimer := none } }
  else w

/-- One atomic occurrence in the event loop: a user scroll (the handler runs
at the new offset), a click on the toggle (listener attached only when the
toggle exists) or the overlay, a key press, a resize to a new width, an
orientation change, or one of the pending timers firing. -/
inductive Event where
  | scroll (y : Nat)
  | toggleClick
  | overlayClick
  | keydown (k : Key) (shift : Bool)
  | resize (width : Nat)
  | orientationChange
  | fireHide
  | fireShow
  | fireFocus
  | fireScrollingEnd
deriving DecidableEq

def step (e : Event) (w : World) : World :=
  match e with
  | .scroll y => handleScroll { w with scrollY := y }
  | .toggleClick => if w.dom.toggle.isSome then toggleMenu w else w
  | .overlayClick => if w.dom.overlay.isSome then closeMenu w else w
  | .keydown k shift => keydownStep k shift w
  | .resize width => handleResize { w with innerWidth := width }
  | .orientationChange => handleOrientationChange w
  | .fireHide => fireHideTimer w
  | .fireShow => fireShowTimer w
  | .fireFocus => fireFocusTimer w
  | .fireScrollingEnd => fireScrollingTimer w

def run (t : List Event) (w : World) : World :=
  match t with
  | [] => w
  | e :: rest => run rest (step e w)

/-- The `auto-hidden` class on the toggle; an absent toggle carries no
class. -/
def toggleAutoHidden (d : Dom) : Bool :=
  (d.toggle.map ToggleEl.autoHidden).getD false

def toggleAriaExpanded (d : Dom) : Option String :=
  d.toggle.bind ToggleEl.ariaExpanded

def sidebarAriaHidden (d : Dom) : Option String :=
  d.sidebar.bind SidebarEl.ariaHidden

def sidebarOpenCls (d : Dom) : Option Bool :=
  d.sidebar.map SidebarEl.openCls

def sidebarVisibleCls (d : Dom) : Option Bool :=
  d.sidebar.map SidebarEl.visibleCls

def overlayActiveCls (d : Dom) : Option Bool :=
  d.overlay.map OverlayEl.activeCls

def bodyNavOpen (d : Dom) : Option Bool :=
  d.body.map BodyEl.navOpen

/-- The safety property of claim C1: the toggle is never auto-hidden while
the menu is open. -/
def MenuOpenNeverHidden (w : World) : Prop :=
  w.nav.menuOpen = true → toggleAutoHidden w.dom = false

/-- Whether an event invokes `openMenu`: only a toggle click, on a mobile
width, with the menu currently closed, does. -/
def opensMenu (e : Event) (w : World) : Bool :=
  match e with
  | .toggleClick => w.dom.toggle.isSome && !isDesktop w && !w.nav.menuOpen
  | _ => false

/-- A trace along which no step invokes `openMenu`. -/
def NoOpenTrace : World → List Event → Prop
  | _, [] => True
  | w, e :: t => opensMenu e w = false ∧ NoOpenTrace (step e w) t

/-- Membership in the keyboard-trap set: the toggle control plus the
navigable items. -/
def inFocusSet (d : Dom) (t : FocusTarget) : Bool :=
  match t with
  | .toggle => true
  | .navItem i => i < d.navItemsCount
  | .other => false

/-- `toggleSidebar` of common.js (lines 40-47): toggles the sidebar `open`
class and the overlay `active` class, only when both elements exist; it
touches nothing else. -/
def CommonJs.toggleSidebar (d : Dom) : Dom :=
  if d.sidebar.isSome && d.overlay.isSome then
    mapOverlay (fun o => { o with activeCls := !o.activeCls })
      (mapSidebar (fun s => { s with openCls := !s.openCls }) d)
  else d

/-- The module-level initial `state` object (lines 43-54). -/
def initNavState : NavState :=
  { lastScrollY := 0
    menuOpen := false
    scrollPosition := 0
    prefersReducedMotion := false
    isScrolling := false
    scrollingTimer := none
    hideTimer := none
    showTimers := []
    focusTimers := [] }

/-- The result of `init` (lines 385-474): whether the warning path was
taken, whether event listeners were attached, and the resulting world. -/
structure InitResult where
  warned : Bool
  attached : Bool
  world : World
deriving DecidableEq

/-- `init` (lines 385-474): bails out with a warning when neither the toggle
nor the sidebar exists; otherwise writes initial ARIA attributes and the
icon, attaches listeners, and baselines `state.lastScrollY`. -/
def init (cfg : Config) (d : Dom) (y width : Nat) (reducedMotion : Bool) : InitResult :=
  let w0 : World := { cfg := cfg, nav := initNavState, dom := d, scrollY := y, innerWidth := width }
  if d.toggle.isNone && d.sidebar.isNone then
    { warned := true, attached := false, world := w0 }
  else
    let d1 := mapToggle (fun t => { t with ariaExpanded := some "false" }) d
    let d2 := mapSidebar
      (fun s => { s with ariaHidden := some (if 1025 ≤ width then "false" else "true") }) d1
    let d3 := mapToggle (fun t => { t with icon := "☰" }) d2
    let nav1 : NavState :=
      { initNavState with prefersReducedMotion := reducedMotion, lastScrollY := y }
    { warned := false
      attached := true
      world := { w0 with dom := d3, nav := nav1 } }

/-- A DOM in which every element lookup failed. -/
def emptyDom : Dom :=
  { toggle := none, sidebar := none, overlay := none, body := none
    navItemsCount := 0, focused := .other }

/-- The `onScroll` coalescing mechanism (lines 226-235), modelled on its
own: `ticking` is `state.ticking` and `queuedFrames` counts
requestAnimationFrame callbacks that have been queued but not yet run. -/
structure TickState where
  ticking : Bool
  queuedFrames : Nat
deriving DecidableEq

/-- `onScroll` (lines 227-235): queues one animation-frame evaluation only
when none is pending. -/
def onScroll (s : TickState) : TickState :=
  if !s.ticking then { ticking := true, queuedFrames := s.queuedFrames + 1 }
  else s

/-- An animation frame firing: runs one queued evaluation (`handleScroll`)
and then clears `state.ticking`. -/
def animationFrame (s : TickState) : TickState :=
  match s.queuedFrames with
  | 0 => s
  | n + 1 => { ticking := false, queuedFrames := n }

inductive TickEvent where
  | scrollArrives
  | frameFires
deriving DecidableEq

def tickStep (e : TickEvent) (s : TickState) : TickState :=
  match e with
  | .scrollArrives => onScroll s
  | .frameFires => animationFrame s

def runTick (t : List TickEvent) (s : TickState) : TickState :=
  match t with
  | [] => s
  | e :: rest => runTick rest (tickStep e s)

/-- The initial ticking state: flag clear, nothing queued. -/
def tickInit : TickState := { ticking := false, queuedFrames := 0 }

/-- A fully present mobile-width sample world: all four elements found,
three nav items, menu closed, at the top of the page, defaults from
`CONFIG`. -/
def baseWorld : World :=
  { cfg := CONFIG
    nav := initNavState
    dom :=
      { toggle := some { autoHidden := false, isScrollingCls := false
                         ariaExpanded := some "false", icon := "☰" }
        sidebar := some { openCls := false, visibleCls := false, ariaHidden := some "true" }
        overlay := some { activeCls := false }
        body := some { navOpen := false }
        navItemsCount := 3
        focused := .other }
    scrollY := 0
    innerWidth := 500 }

/-- A desktop-width variant of `baseWorld` carrying a pending hide timer. -/
def desktopWorld : World :=
  { baseWorld with
      innerWidth := 1200
      nav := { baseWorld.nav with hideTimer := some 150 } }

/-- A mobile-width world caught mid-interaction: menu open (sidebar
`open`/`visible`, overlay `active`, body `nav-open`) with a hide timer
still pending — the mobile-to-desktop crossing pre-state. -/
def crossingWorld : World :=
  { baseWorld with
      nav := { baseWorld.nav with menuOpen := true, hideTimer := some 150 }
      dom := { baseWorld.dom with
                 sidebar := some { openCls := true, visibleCls := true, ariaHidden := some "false" }
                 overlay := some { activeCls := true }
                 body := some { navOpen := true } } }

/-- `baseWorld` with the menu open and focus on the last nav item. -/
def openMenuWorldLast : World :=
  { baseWorld with
      nav := { baseWorld.nav with menuOpen := true }
      dom := { baseWorld.dom with focused := FocusTarget.navItem 2 } }

/-- `baseWorld` with the menu open and focus on the toggle. -/
def openMenuWorldToggle : World :=
  { baseWorld with
      nav := { baseWorld.nav with menuOpen := true }
      dom := { baseWorld.dom with focused := FocusTarget.toggle } }

/-!  Helper lemmas: which observable fields each handler leaves unchanged.
These drive the trace-level invariant proofs. -/

theorem optIsSomeMap (f : α → β) (x : Option α) : (x.map f).isSome = x.isSome := by
  cases x <;> rfl

theorem optIsNoneMap (f : α → β) (x : Option α) : (x.map f).isNone = x.isNone := by
  cases x <;> rfl

theorem closeMenu_proj (w : World) :
    (closeMenu w).nav.menuOpen = false ∧
    (closeMenu w).nav.scrollPosition = w.nav.scrollPosition ∧
    (closeMenu w).nav.hideTimer = w.nav.hideTimer ∧
    toggleAutoHidden (closeMenu w).dom = toggleAutoHidden w.dom ∧
    (closeMenu w).cfg = w.cfg ∧ (closeMenu w).innerWidth = w.innerWidth ∧
    (closeMenu w).dom.toggle.isSome = w.dom.toggle.isSome ∧
    (closeMenu w).dom.sidebar.isSome = w.dom.sidebar.isSome ∧
    (closeMenu w).dom.overlay.isSome = w.dom.overlay.isSome ∧
    (closeMenu w).dom.body.isSome = w.dom.body.isSome ∧
    (closeMenu w).dom.navItemsCount = w.dom.navItemsCount := by
  cases htg : w.dom.toggle <;>
    simp [closeMenu, mapToggle, mapSidebar, mapOverlay, mapBody, setFocus,
          toggleAutoHidden, htg, optIsSomeMap]

theorem openMenu_proj (w : World) :
    (openMenu w).nav.menuOpen = true ∧
    (openMenu w).nav.scrollPosition = w.scrollY ∧
    toggleAutoHidden (openMenu w).dom = false ∧
    (openMenu w).cfg = w.cfg ∧ (openMenu w).innerWidth = w.innerWidth ∧
    (openMenu w).dom.toggle.isSome = w.dom.toggle.isSome ∧
    (openMenu w).dom.sidebar.isSome = w.dom.sidebar.isSome ∧
    (openMenu w).dom.overlay.isSome = w.dom.overlay.isSome ∧
    (openMenu w).dom.body.isSome = w.dom.body.isSome ∧
    (openMenu w).dom.navItemsCount = w.dom.navItemsCount ∧
    (openMenu w).dom.focused = w.dom.focused := by
  cases htg : w.dom.toggle <;>
    simp [openMenu, showToggle, cancelHideTimer, mapToggle, mapSidebar, mapOverlay,
          mapBody, toggleAutoHidden, htg, optIsSomeMap]

theorem handleScroll_proj (w : World) :
    (handleScroll w).nav.menuOpen = w.nav.menuOpen ∧
    (handleScroll w).nav.scrollPosition = w.nav.scrollPosition ∧
    (handleScroll w).cfg = w.cfg ∧
    (handleScroll w).innerWidth = w.innerWidth ∧
    (handleScroll w).dom.toggle.isSome = w.dom.toggle.isSome ∧
    (handleScroll w).dom.sidebar.isSome = w.dom.sidebar.isSome ∧
    (handleScroll w).dom.overlay.isSome = w.dom.overlay.isSome ∧
    (handleScroll w).dom.body.isSome = w.dom.body.isSome ∧
    (handleScroll w).dom.navItemsCount = w.dom.navItemsCount ∧
    (handleScroll w).dom.focused = w.dom.focused := by
  cases htg : w.dom.toggle <;> cases hpm : w.nav.prefersReducedMotion <;>
    cases hsc : w.nav.isScrolling <;> unfold handleScroll
  all_goals simp [isDesktop, handleScrollEnd, setScrollingState, showToggle,
    hideToggleWithDelay, cancelHideTimer, mapToggle, htg, hpm, hsc, optIsSomeMap]
  all_goals repeat' split
  all_goals simp [mapToggle, optIsSomeMap, htg]

theorem handleScroll_open (w : World) (hm : w.nav.menuOpen = true) :
    toggleAutoHidden (handleScroll w).dom = toggleAutoHidden w.dom ∧
    (handleScroll w).nav.hideTimer = w.nav.hideTimer ∧
    (handleScroll w).nav.menuOpen = true := by
  cases htg : w.dom.toggle <;> cases hpm : w.nav.prefersReducedMotion <;>
    cases hsc : w.nav.isScrolling <;> unfold handleScroll
  all_goals simp [isDesktop, handleScrollEnd, setScrollingState, toggleAutoHidden,
    mapToggle, htg, hpm, hsc, hm]
  all_goals repeat' split
  all_goals simp [mapToggle, toggleAutoHidden, htg, hm]
theorem fireHideTimer_proj (w : World) :
    (fireHideTimer w).nav.menuOpen = w.nav.menuOpen ∧
    (fireHideTimer w).nav.scrollPosition = w.nav.scrollPosition ∧
    (fireHideTimer w).cfg = w.cfg ∧
    (fireHideTimer w).innerWidth = w.innerWidth ∧
    (fireHideTimer w).dom.toggle.isSome = w.dom.toggle.isSome ∧
    (fireHideTimer w).dom.sidebar.isSome = w.dom.sidebar.isSome ∧
    (fireHideTimer w).dom.overlay.isSome = w.dom.overlay.isSome ∧
    (fireHideTimer w).dom.body.isSome = w.dom.body.isSome ∧
    (fireHideTimer w).dom.navItemsCount = w.dom.navItemsCount ∧
    (w.nav.menuOpen = true → toggleAutoHidden (fireHideTimer w).dom = toggleAutoHidden w.dom) := by
  cases hht : w.nav.hideTimer <;> cases hm : w.nav.menuOpen <;> cases htg : w.dom.toggle <;>
    simp [fireHideTimer, hht, hm, htg, mapToggle, toggleAutoHidden, optIsSomeMap]

theorem fireShowTimer_proj (w : World) :
    (fireShowTimer w).nav.menuOpen = w.nav.menuOpen ∧
    (fireShowTimer w).nav.scrollPosition = w.nav.scrollPosition ∧
    (fireShowTimer w).nav.hideTimer = w.nav.hideTimer ∧
    (fireShowTimer w).cfg = w.cfg ∧
    (fireShowTimer w).innerWidth = w.innerWidth ∧
    (fireShowTimer w).dom.toggle.isSome = w.dom.toggle.isSome ∧
    (fireShowTimer w).dom.sidebar.isSome = w.dom.sidebar.isSome ∧
    (fireShowTimer w).dom.overlay.isSome = w.dom.overlay.isSome ∧
    (fireShowTimer w).dom.body.isSome = w.dom.body.isSome ∧
    (fireShowTimer w).dom.navItemsCount = w.dom.navItemsCount ∧
    (toggleAutoHidden (fireShowTimer w).dom = toggleAutoHidden w.dom ∨
      toggleAutoHidden (fireShowTimer w).dom = false) := by
  cases hst : w.nav.showTimers <;> cases htg : w.dom.toggle <;>
    simp [fireShowTimer, hst, htg, mapToggle, toggleAutoHidden, optIsSomeMap]

theorem fireFocusTimer_proj (w : World) :
    (fireFocusTimer w).nav.menuOpen = w.nav.menuOpen ∧
    (fireFocusTimer w).nav.scrollPosition = w.nav.scrollPosition ∧
    (fireFocusTimer w).nav.hideTimer = w.nav.hideTimer ∧
    (fireFocusTimer w).cfg = w.cfg ∧
    (fireFocusTimer w).innerWidth = w.innerWidth ∧
    toggleAutoHidden (fireFocusTimer w).dom = toggleAutoHidden w.dom ∧
    (fireFocusTimer w).dom.toggle.isSome = w.dom.toggle.isSome ∧
    (fireFocusTimer w).dom.sidebar.isSome = w.dom.sidebar.isSome ∧
    (fireFocusTimer w).dom.overlay.isSome = w.dom.overlay.isSome ∧
    (fireFocusTimer w).dom.body.isSome = w.dom.body.isSome ∧
    (fireFocusTimer w).dom.navItemsCount = w.dom.navItemsCount := by
  cases hft : w.nav.focusTimers <;>
    rcases Nat.eq_zero_or_pos w.dom.navItemsCount with hn | hn <;>
    simp [fireFocusTimer, hft, hn, setFocus, toggleAutoHidden]

theorem fireScrollingTimer_proj (w : World) :
    (fireScrollingTimer w).nav.menuOpen = w.nav.menuOpen ∧
    (fireScrollingTimer w).nav.scrollPosition = w.nav.scrollPosition ∧
    (fireScrollingTimer w).nav.hideTimer = w.nav.hideTimer ∧
    (fireScrollingTimer w).cfg = w.cfg ∧
    (fireScrollingTimer w).innerWidth = w.innerWidth ∧
    toggleAutoHidden (fireScrollingTimer w).dom = toggleAutoHidden w.dom ∧
    (fireScrollingTimer w).dom.toggle.isSome = w.dom.toggle.isSome ∧
    (fireScrollingTimer w).dom.sidebar.isSome = w.dom.sidebar.isSome ∧
    (fireScrollingTimer w).dom.overlay.isSome = w.dom.overlay.isSome ∧
    (fireScrollingTimer w).dom.body.isSome = w.dom.body.isSome ∧
    (fireScrollingTimer w).dom.navItemsCount = w.dom.navItemsCount := by
  cases hsct : w.nav.scrollingTimer <;> cases htg : w.dom.toggle <;>
    cases hpm : w.nav.prefersReducedMotion <;> cases hsc : w.nav.isScrolling <;>
    simp [fireScrollingTimer, setScrollingState, hsct, htg, hpm, hsc, mapToggle,
          toggleAutoHidden, optIsSomeMap]
theorem handleResize_proj (w : World) :
    (handleResize w).nav.scrollPosition = w.nav.scrollPosition ∧
    (handleResize w).nav.hideTimer = w.nav.hideTimer ∧
    (handleResize w).cfg = w.cfg ∧
    (handleResize w).innerWidth = w.innerWidth ∧
    (handleResize w).dom.toggle.isSome = w.dom.toggle.isSome ∧
    (handleResize w).dom.sidebar.isSome = w.dom.sidebar.isSome ∧
    (handleResize w).dom.overlay.isSome = w.dom.overlay.isSome ∧
    (handleResize w).dom.body.isSome = w.dom.body.isSome ∧
    (handleResize w).dom.navItemsCount = w.dom.navItemsCount ∧
    ((handleResize w).nav.menuOpen = w.nav.menuOpen ∨
      (handleResize w).nav.menuOpen = false) ∧
    (toggleAutoHidden (handleResize w).dom = toggleAutoHidden w.dom ∨
      toggleAutoHidden (handleResize w).dom = false) := by
  rcases Nat.lt_or_ge w.innerWidth 1025 with hw | hw <;>
    cases hm : w.nav.menuOpen <;> cases htg : w.dom.toggle <;>
    simp [handleResize, isDesktop, Nat.not_le.mpr, hw, hm, htg, mapToggle, mapSidebar,
          mapOverlay, mapBody, toggleAutoHidden, optIsSomeMap]

theorem handleOrientationChange_proj (w : World) :
    (handleOrientationChange w).nav.scrollPosition = w.nav.scrollPosition ∧
    (handleOrientationChange w).nav.hideTimer = w.nav.hideTimer ∧
    (handleOrientationChange w).cfg = w.cfg ∧
    (handleOrientationChange w).innerWidth = w.innerWidth ∧
    toggleAutoHidden (handleOrientationChange w).dom = toggleAutoHidden w.dom ∧
    (handleOrientationChange w).dom.toggle.isSome = w.dom.toggle.isSome ∧
    (handleOrientationChange w).dom.sidebar.isSome = w.dom.sidebar.isSome ∧
    (handleOrientationChange w).dom.overlay.isSome = w.dom.overlay.isSome ∧
    (handleOrientationChange w).dom.body.isSome = w.dom.body.isSome ∧
    (handleOrientationChange w).dom.navItemsCount = w.dom.navItemsCount ∧
    ((handleOrientationChange w).nav.menuOpen = w.nav.menuOpen ∨
      (handleOrientationChange w).nav.menuOpen = false) := by
  obtain ⟨c1, c2, c3, c4, c5, c6, c7, c8, c9, c10, c11⟩ := closeMenu_proj w
  cases hm : w.nav.menuOpen <;>
    simp [handleOrientationChange, hm, c1, c2, c3, c4, c5, c6, c7, c8, c9, c10, c11]

theorem defaultTabMove_proj (s : Bool) (d : Dom) :
    toggleAutoHidden (defaultTabMove s d) = toggleAutoHidden d ∧
    (defaultTabMove s d).toggle.isSome = d.toggle.isSome ∧
    (defaultTabMove s d).sidebar.isSome = d.sidebar.isSome ∧
    (defaultTabMove s d).overlay.isSome = d.overlay.isSome ∧
    (defaultTabMove s d).body.isSome = d.body.isSome ∧
    (defaultTabMove s d).navItemsCount = d.navItemsCount := by
  unfold defaultTabMove
  repeat' split
  all_goals simp [setFocus, toggleAutoHidden]

theorem keydownStep_proj (k : Key) (s : Bool) (w : World) :
    (keydownStep k s w).nav.scrollPosition = w.nav.scrollPosition ∧
    (keydownStep k s w).nav.hideTimer = w.nav.hideTimer ∧
    (keydownStep k s w).cfg = w.cfg ∧
    (keydownStep k s w).innerWidth = w.innerWidth ∧
    toggleAutoHidden (keydownStep k s w).dom = toggleAutoHidden w.dom ∧
    (keydownStep k s w).dom.toggle.isSome = w.dom.toggle.isSome ∧
    (keydownStep k s w).dom.sidebar.isSome = w.dom.sidebar.isSome ∧
    (keydownStep k s w).dom.overlay.isSome = w.dom.overlay.isSome ∧
    (keydownStep k s w).dom.body.isSome = w.dom.body.isSome ∧
    (keydownStep k s w).dom.navItemsCount = w.dom.navItemsCount ∧
    ((keydownStep k s w).nav.menuOpen = w.nav.menuOpen ∨
      (keydownStep k s w).nav.menuOpen = false) := by
  obtain ⟨c1, c2, c3, c4, c5, c6, c7, c8, c9, c10, c11⟩ := closeMenu_proj w
  obtain ⟨d1, d2, d3, d4, d5, d6⟩ := defaultTabMove_proj s w.dom
  cases k
  · cases hm : w.nav.menuOpen <;>
      simp [keydownStep, handleKeydown, hm, c1, c2, c3, c4, c5, c6, c7, c8, c9, c10, c11]
  · cases hm : w.nav.menuOpen
    · simp [keydownStep, handleKeydown, hm, d1, d2, d3, d4, d5, d6]
    · have d1a : (Option.map ToggleEl.autoHidden (defaultTabMove s w.dom).toggle).getD false =
          (Option.map ToggleEl.autoHidden w.dom.toggle).getD false := by
        simpa [toggleAutoHidden] using d1
      unfold keydownStep handleKeydown
      simp only [hm]
      repeat' split
      all_goals simp_all [setFocus, toggleAutoHidden, d1a, d2, d3, d4, d5, d6]
  · simp [keydownStep, handleKeydown, d1, d2, d3, d4, d5, d6]
theorem step_stable (e : Event) (w : World) :
    (step e w).cfg = w.cfg ∧
    (step e w).dom.toggle.isSome = w.dom.toggle.isSome ∧
    (step e w).dom.sidebar.isSome = w.dom.sidebar.isSome ∧
    (step e w).dom.overlay.isSome = w.dom.overlay.isSome ∧
    (step e w).dom.body.isSome = w.dom.body.isSome ∧
    (step e w).dom.navItemsCount = w.dom.navItemsCount := by
  cases e with
  | scroll y =>
      obtain ⟨-, -, h3, -, h5, h6, h7, h8, h9, -⟩ := handleScroll_proj { w with scrollY := y }
      exact ⟨h3, h5, h6, h7, h8, h9⟩
  | toggleClick =>
      obtain ⟨-, -, -, -, c5, -, c7, c8, c9, c10, c11⟩ := closeMenu_proj w
      obtain ⟨-, -, -, o4, o5, o6, o7, o8, o9, o10, -⟩ := openMenu_proj w
      simp only [step]
      unfold toggleMenu
      repeat' split
      all_goals simp_all
  | overlayClick =>
      obtain ⟨-, -, -, -, c5, -, c7, c8, c9, c10, c11⟩ := closeMenu_proj w
      simp only [step]
      split
      all_goals simp_all
  | keydown k s =>
      obtain ⟨-, -, k3, -, -, k6, k7, k8, k9, k10, -⟩ := keydownStep_proj k s w
      exact ⟨k3, k6, k7, k8, k9, k10⟩
  | resize width =>
      obtain ⟨-, -, r3, -, r5, r6, r7, r8, r9, -, -⟩ := handleResize_proj { w with innerWidth := width }
      exact ⟨r3, r5, r6, r7, r8, r9⟩
  | orientationChange =>
      obtain ⟨-, -, o3, -, -, o6, o7, o8, o9, o10, -⟩ := handleOrientationChange_proj w
      exact ⟨o3, o6, o7, o8, o9, o10⟩
  | fireHide =>
      obtain ⟨-, -, f3, -, f5, f6, f7, f8, f9, -⟩ := fireHideTimer_proj w
      exact ⟨f3, f5, f6, f7, f8, f9⟩
  | fireShow =>
      obtain ⟨-, -, -, f4, -, f6, f7, f8, f9, f10, -⟩ := fireShowTimer_proj w
      exact ⟨f4, f6, f7, f8, f9, f10⟩
  | fireFocus =>
      obtain ⟨-, -, -, f4, -, -, f7, f8, f9, f10, f11⟩ := fireFocusTimer_proj w
      exact ⟨f4, f7, f8, f9, f10, f11⟩
  | fireScrollingEnd =>
      obtain ⟨-, -, -, f4, -, -, f7, f8, f9, f10, f11⟩ := fireScrollingTimer_proj w
      exact ⟨f4, f7, f8, f9, f10, f11⟩

theorem run_stable (t : List Event) (w : World) :
    (run t w).cfg = w.cfg ∧
    (run t w).dom.toggle.isSome = w.dom.toggle.isSome ∧
    (run t w).dom.sidebar.isSome = w.dom.sidebar.isSome ∧
    (run t w).dom.overlay.isSome = w.dom.overlay.isSome ∧
    (run t w).dom.body.isSome = w.dom.body.isSome ∧
    (run t w).dom.navItemsCount = w.dom.navItemsCount := by
  induction t generalizing w with
  | nil => exact ⟨rfl, rfl, rfl, rfl, rfl, rfl⟩
  | cons e rest ih =>
      obtain ⟨s1, s2, s3, s4, s5, s6⟩ := step_stable e w
      obtain ⟨r1, r2, r3, r4, r5, r6⟩ := ih (step e w)
      exact ⟨r1.trans s1, r2.trans s2, r3.trans s3, r4.trans s4, r5.trans s5, r6.trans s6⟩

theorem step_scrollPos (e : Event) (w : World) (h : opensMenu e w = false) :
    (step e w).nav.scrollPosition = w.nav.scrollPosition := by
  cases e with
  | scroll y => exact (handleScroll_proj { w with scrollY := y }).2.1
  | toggleClick =>
      simp only [step]
      split
      · unfold toggleMenu
        split
        · rfl
        · split
          · exact (closeMenu_proj w).2.1
          · exfalso
            simp_all [opensMenu]
      · rfl
  | overlayClick =>
      simp only [step]
      split
      · exact (closeMenu_proj w).2.1
      · rfl
  | keydown k s => exact (keydownStep_proj k s w).1
  | resize width => exact (handleResize_proj { w with innerWidth := width }).1
  | orientationChange => exact (handleOrientationChange_proj w).1
  | fireHide => exact (fireHideTimer_proj w).2.1
  | fireShow => exact (fireShowTimer_proj w).2.1
  | fireFocus => exact (fireFocusTimer_proj w).2.1
  | fireScrollingEnd => exact (fireScrollingTimer_proj w).2.1

theorem run_scrollPos (t : List Event) (w : World) (h : NoOpenTrace w t) :
    (run t w).nav.scrollPosition = w.nav.scrollPosition := by
  induction t generalizing w with
  | nil => rfl
  | cons e rest ih =>
      obtain ⟨h1, h2⟩ := h
      have hr : (run rest (step e w)).nav.scrollPosition = (step e w).nav.scrollPosition :=
        ih (step e w) h2
      exact hr.trans (step_scrollPos e w h1)
theorem step_inv (e : Event) (w : World) (h : MenuOpenNeverHidden w) :
    MenuOpenNeverHidden (step e w) := by
  unfold MenuOpenNeverHidden at h ⊢
  intro hm
  cases e with
  | scroll y =>
      have hp := handleScroll_proj { w with scrollY := y }
      simp only [step] at hm ⊢
      have hmw : w.nav.menuOpen = true := by rw [hp.1] at hm; exact hm
      have ho := handleScroll_open { w with scrollY := y } hmw
      rw [ho.1]
      exact h hmw
  | toggleClick =>
      simp only [step] at hm ⊢
      by_cases htg : w.dom.toggle.isSome = true
      · rw [if_pos htg] at hm ⊢
        unfold toggleMenu at hm ⊢
        by_cases hd : isDesktop w = true
        · rw [if_pos hd] at hm ⊢; exact h hm
        · rw [if_neg hd] at hm ⊢
          by_cases hmo : w.nav.menuOpen = true
          · rw [if_pos hmo] at hm ⊢
            rw [(closeMenu_proj w).1] at hm
            exact absurd hm (by simp)
          · rw [if_neg hmo] at hm ⊢
            exact (openMenu_proj w).2.2.1
      · rw [if_neg htg] at hm ⊢; exact h hm
  | overlayClick =>
      simp only [step] at hm ⊢
      by_cases ho : w.dom.overlay.isSome = true
      · rw [if_pos ho] at hm ⊢
        rw [(closeMenu_proj w).1] at hm
        exact absurd hm (by simp)
      · rw [if_neg ho] at hm ⊢; exact h hm
  | keydown k s =>
      have kp := keydownStep_proj k s w
      simp only [step] at hm ⊢
      rcases kp.2.2.2.2.2.2.2.2.2.2 with hmo | hmo
      · rw [kp.2.2.2.2.1, h (hmo ▸ hm)]
      · rw [hmo] at hm; exact absurd hm (by simp)
  | resize width =>
      have rp := handleResize_proj { w with innerWidth := width }
      simp only [step] at hm ⊢
      rcases rp.2.2.2.2.2.2.2.2.2 with ⟨hmo | hmo, hah | hah⟩
      · rw [hah]; exact h (hmo ▸ hm)
      · rw [hah]
      · rw [hmo] at hm; exact absurd hm (by simp)
      · rw [hah]
  | orientationChange =>
      have op := handleOrientationChange_proj w
      simp only [step] at hm ⊢
      rcases op.2.2.2.2.2.2.2.2.2.2 with hmo | hmo
      · rw [op.2.2.2.2.1]; exact h (hmo ▸ hm)
      · rw [hmo] at hm; exact absurd hm (by simp)
  | fireHide =>
      have fp := fireHideTimer_proj w
      simp only [step] at hm ⊢
      have hmw : w.nav.menuOpen = true := fp.1 ▸ hm
      rw [fp.2.2.2.2.2.2.2.2.2 hmw]
      exact h hmw
  | fireShow =>
      have fp := fireShowTimer_proj w
      simp only [step] at hm ⊢
      rcases fp.2.2.2.2.2.2.2.2.2.2 with hah | hah
      · rw [hah]; exact h (fp.1 ▸ hm)
      · rw [hah]
  | fireFocus =>
      have fp := fireFocusTimer_proj w
      simp only [step] at hm ⊢
      rw [fp.2.2.2.2.2.1]
      exact h (fp.1 ▸ hm)
  | fireScrollingEnd =>
      have fp := fireScrollingTimer_proj w
      simp only [step] at hm ⊢
      rw [fp.2.2.2.2.2.1]
      exact h (fp.1 ▸ hm)

theorem run_inv (t : List Event) (w : World) (h : MenuOpenNeverHidden w) :
    MenuOpenNeverHidden (run t w) := by
  induction t generalizing w with
  | nil => exact h
  | cons e rest ih => exact ih (step e w) (step_inv e w h)
theorem closeMenu_vals (w : World)
    (ht : w.dom.toggle.isSome = true) (hs : w.dom.sidebar.isSome = true)
    (hb : w.dom.body.isSome = true) :
    (closeMenu w).scrollY = w.nav.scrollPosition ∧
    toggleAriaExpanded (closeMenu w).dom = some "false" ∧
    sidebarAriaHidden (closeMenu w).dom = some "true" ∧
    bodyNavOpen (closeMenu w).dom = some false ∧
    (closeMenu w).dom.focused = FocusTarget.toggle := by
  obtain ⟨tg, htg⟩ := Option.isSome_iff_exists.mp ht
  obtain ⟨sb, hsb⟩ := Option.isSome_iff_exists.mp hs
  obtain ⟨bd, hbd⟩ := Option.isSome_iff_exists.mp hb
  simp [closeMenu, mapToggle, mapSidebar, mapOverlay, mapBody, setFocus,
        toggleAriaExpanded, sidebarAriaHidden, bodyNavOpen, htg, hsb, hbd]

/-- C1: while the menu is open the toggle never gains the `auto-hidden`
class: the property `MenuOpenNeverHidden` is preserved by every event
trace, and a scroll evaluation with the menu open (on a mobile-width
viewport with the toggle present) only records the new scroll offset —
it neither touches the hide timer nor the `auto-hidden` class, and the
hide-timer callback itself refuses to hide while `menuOpen` is set. -/
theorem C1_menu_open_never_auto_hidden :
    (∀ (w : World) (t : List Event),
      MenuOpenNeverHidden w → MenuOpenNeverHidden (run t w)) ∧
    (∀ (w : World) (y : Nat),
      w.nav.menuOpen = true → w.innerWidth < 1025 → w.dom.toggle.isSome = true →
      ((step (Event.scroll y) w).nav.lastScrollY = y ∧
       (step (Event.scroll y) w).nav.hideTimer = w.nav.hideTimer ∧
       toggleAutoHidden (step (Event.scroll y) w).dom = toggleAutoHidden w.dom ∧
       (step (Event.scroll y) w).nav.menuOpen = true)) := by
  constructor
  · exact fun w t h => run_inv t w h
  · intro w y hm hd ht
    obtain ⟨tg, htg⟩ := Option.isSome_iff_exists.mp ht
    cases hpm : w.nav.prefersReducedMotion <;> cases hsc : w.nav.isScrolling <;>
      simp [step, handleScroll, isDesktop, Nat.not_le.mpr hd, htg, hm, hpm, hsc,
            handleScrollEnd, setScrollingState, mapToggle, toggleAutoHidden]

/-- Witness for C1 at a concrete open-menu state and trace: a pending hide
fired right after opening leaves the toggle un-hidden, and a scroll at
offset 300 with the menu open only updates the recorded offset. -/
theorem C1_menu_open_never_auto_hidden_witness :
    (MenuOpenNeverHidden (run [Event.fireHide] (openMenu baseWorld)) ∧
     ((step (Event.scroll 300) (openMenu baseWorld)).nav.lastScrollY = 300 ∧
      (step (Event.scroll 300) (openMenu baseWorld)).nav.hideTimer = (openMenu baseWorld).nav.hideTimer ∧
      toggleAutoHidden (step (Event.scroll 300) (openMenu baseWorld)).dom =
        toggleAutoHidden (openMenu baseWorld).dom ∧
      (step (Event.scroll 300) (openMenu baseWorld)).nav.menuOpen = true)) :=
  ⟨C1_menu_open_never_auto_hidden.1 (openMenu baseWorld) [Event.fireHide] (fun _ => by decide),
   C1_menu_open_never_auto_hidden.2 (openMenu baseWorld) 300 (by decide) (by decide) (by decide)⟩

/-- C2: for a matched open/close pair — `closeMenu` after an `openMenu`
with no intervening menu-opening step — closing restores `window.scrollY`
to exactly the offset captured at the open, sets `aria-expanded="false"`
on the toggle and `aria-hidden="true"` on the sidebar, removes the body
`nav-open` class, and returns focus to the toggle. -/
theorem C2_close_restores_open_state (w0 : World) (t : List Event)
    (ht : w0.dom.toggle.isSome = true) (hs : w0.dom.sidebar.isSome = true)
    (hb : w0.dom.body.isSome = true)
    (htr : NoOpenTrace (openMenu w0) t) :
    (closeMenu (run t (openMenu w0))).scrollY = w0.scrollY ∧
    toggleAriaExpanded (closeMenu (run t (openMenu w0))).dom = some "false" ∧
    sidebarAriaHidden (closeMenu (run t (openMenu w0))).dom = some "true" ∧
    bodyNavOpen (closeMenu (run t (openMenu w0))).dom = some false ∧
    (closeMenu (run t (openMenu w0))).dom.focused = FocusTarget.toggle := by
  obtain ⟨-, o2, -, -, -, o6, o7, -, o9, -, -⟩ := openMenu_proj w0
  obtain ⟨-, r2, r3, -, r5, -⟩ := run_stable t (openMenu w0)
  have ht2 : (run t (openMenu w0)).dom.toggle.isSome = true := by rw [r2, o6, ht]
  have hs2 : (run t (openMenu w0)).dom.sidebar.isSome = true := by rw [r3, o7, hs]
  have hb2 : (run t (openMenu w0)).dom.body.isSome = true := by rw [r5, o9, hb]
  obtain ⟨v1, v2, v3, v4, v5⟩ := closeMenu_vals (run t (openMenu w0)) ht2 hs2 hb2
  refine ⟨?_, v2, v3, v4, v5⟩
  rw [v1, run_scrollPos t (openMenu w0) htr, o2]

/-- Witness for C2: opening at scroll offset 77, scrolling to 300 with the
menu open, then closing, lands back at offset 77 with all attributes and
focus restored. -/
theorem C2_close_restores_open_state_witness :
    (closeMenu (run [Event.scroll 300] (openMenu { baseWorld with scrollY := 77 }))).scrollY = 77 ∧
    toggleAriaExpanded (closeMenu (run [Event.scroll 300]
      (openMenu { baseWorld with scrollY := 77 }))).dom = some "false" ∧
    sidebarAriaHidden (closeMenu (run [Event.scroll 300]
      (openMenu { baseWorld with scrollY := 77 }))).dom = some "true" ∧
    bodyNavOpen (closeMenu (run [Event.scroll 300]
      (openMenu { baseWorld with scrollY := 77 }))).dom = some false ∧
    (closeMenu (run [Event.scroll 300]
      (openMenu { baseWorld with scrollY := 77 }))).dom.focused = FocusTarget.toggle :=
  C2_close_restores_open_state { baseWorld with scrollY := 77 } [Event.scroll 300]
    (by decide) (by decide) (by decide) ⟨by decide, trivial⟩
/-- C3: every `openMenu` call cancels any in-flight hide timer, captures
the current scroll offset into `state.scrollPosition`, locks body scroll
with `nav-open`, sets `aria-expanded="true"` / `aria-hidden="false"`,
forces the toggle visible, and schedules the focus move to the first nav
item with the configured `transitionDuration`; when that timer fires the
first nav item receives focus. -/
theorem C3_open_menu_entry (w : World)
    (ht : w.dom.toggle.isSome = true) (hs : w.dom.sidebar.isSome = true)
    (hb : w.dom.body.isSome = true) (hf : w.nav.focusTimers = [])
    (hn : 0 < w.dom.navItemsCount) :
    (openMenu w).nav.hideTimer = none ∧
    (openMenu w).nav.scrollPosition = w.scrollY ∧
    (openMenu w).nav.menuOpen = true ∧
    bodyNavOpen (openMenu w).dom = some true ∧
    toggleAriaExpanded (openMenu w).dom = some "true" ∧
    sidebarAriaHidden (openMenu w).dom = some "false" ∧
    toggleAutoHidden (openMenu w).dom = false ∧
    (openMenu w).nav.focusTimers = [w.cfg.transitionDuration] ∧
    (fireFocusTimer (openMenu w)).dom.focused = FocusTarget.navItem 0 := by
  obtain ⟨tg, htg⟩ := Option.isSome_iff_exists.mp ht
  obtain ⟨sb, hsb⟩ := Option.isSome_iff_exists.mp hs
  obtain ⟨bd, hbd⟩ := Option.isSome_iff_exists.mp hb
  simp [openMenu, showToggle, cancelHideTimer, fireFocusTimer, setFocus,
        mapToggle, mapSidebar, mapOverlay, mapBody,
        bodyNavOpen, toggleAriaExpanded, sidebarAriaHidden, toggleAutoHidden,
        htg, hsb, hbd, hf, hn]

/-- Witness for C3 at a concrete mobile world with a pending hide timer. -/
theorem C3_open_menu_entry_witness :
    (openMenu { baseWorld with scrollY := 42 }).nav.hideTimer = none ∧
    (openMenu { baseWorld with scrollY := 42 }).nav.scrollPosition = 42 ∧
    (openMenu { baseWorld with scrollY := 42 }).nav.menuOpen = true ∧
    bodyNavOpen (openMenu { baseWorld with scrollY := 42 }).dom = some true ∧
    toggleAriaExpanded (openMenu { baseWorld with scrollY := 42 }).dom = some "true" ∧
    sidebarAriaHidden (openMenu { baseWorld with scrollY := 42 }).dom = some "false" ∧
    toggleAutoHidden (openMenu { baseWorld with scrollY := 42 }).dom = false ∧
    (openMenu { baseWorld with scrollY := 42 }).nav.focusTimers = [CONFIG.transitionDuration] ∧
    (fireFocusTimer (openMenu { baseWorld with scrollY := 42 })).dom.focused = FocusTarget.navItem 0 :=
  C3_open_menu_entry { baseWorld with scrollY := 42 }
    (by decide) (by decide) (by decide) (by decide) (by decide)

/-- C5: a scroll evaluation with the menu closed and the position strictly
inside the top zone always cancels any pending hide timer and shows the
toggle with zero delay, whatever the scroll delta. -/
theorem C5_top_zone_always_shows (w : World) (y : Nat)
    (hd : w.innerWidth < 1025) (ht : w.dom.toggle.isSome = true)
    (hm : w.nav.menuOpen = false) (htop : y < w.cfg.topThreshold) :
    (step (Event.scroll y) w).nav.hideTimer = none ∧
    toggleAutoHidden (step (Event.scroll y) w).dom = false := by
  obtain ⟨tg, htg⟩ := Option.isSome_iff_exists.mp ht
  cases hpm : w.nav.prefersReducedMotion <;> cases hsc : w.nav.isScrolling <;>
    simp [step, handleScroll, isDesktop, Nat.not_le.mpr hd, htg, hm, htop, hpm, hsc,
          handleScrollEnd, setScrollingState, showToggle, cancelHideTimer,
          mapToggle, toggleAutoHidden]

/-- Witness for C5: a pending hide at offset 120, scrolling back to 40
(inside the top zone of 50), cancels the timer and un-hides the toggle. -/
theorem C5_top_zone_always_shows_witness :
    (step (Event.scroll 40) (step (Event.scroll 120) baseWorld)).nav.hideTimer = none ∧
    toggleAutoHidden (step (Event.scroll 40) (step (Event.scroll 120) baseWorld)).dom = false :=
  C5_top_zone_always_shows (step (Event.scroll 120) baseWorld) 40
    (by decide) (by decide) (by decide) (by decide)
/-- C4: with the menu closed on a mobile viewport (no reduced motion, no
hide already pending), a scroll evaluation arms the deferred hide timer —
set to fire after `CONFIG.autoHideDelay` — exactly when the downward delta
exceeds `CONFIG.scrollDelta`, the absolute position exceeds
`CONFIG.scrollThreshold`, and the position is not inside the top zone;
and an upward delta beyond `CONFIG.scrollDelta` while a hide is pending
cancels the timer and leaves the toggle visible. -/
theorem C4_hide_scheduling_iff :
    (∀ (w : World) (y : Nat),
      w.cfg = CONFIG → w.innerWidth < 1025 → w.dom.toggle.isSome = true →
      w.nav.menuOpen = false → w.nav.prefersReducedMotion = false →
      w.nav.hideTimer = none →
      ((step (Event.scroll y) w).nav.hideTimer = some CONFIG.autoHideDelay ↔
        ((CONFIG.scrollDelta : Int) < (y : Int) - (w.nav.lastScrollY : Int) ∧
         CONFIG.scrollThreshold < y ∧ ¬ y < CONFIG.topThreshold))) ∧
    (∀ (w : World) (y d : Nat),
      w.cfg = CONFIG → w.innerWidth < 1025 → w.dom.toggle.isSome = true →
      w.nav.menuOpen = false → w.nav.prefersReducedMotion = false →
      w.nav.hideTimer = some d →
      (y : Int) - (w.nav.lastScrollY : Int) < -(CONFIG.scrollDelta : Int) →
      ((step (Event.scroll y) w).nav.hideTimer = none ∧
       toggleAutoHidden (step (Event.scroll y) w).dom = false)) := by
  constructor
  · intro w y hcfg hd ht hm hpm hht
    obtain ⟨tg, htg⟩ := Option.isSome_iff_exists.mp ht
    cases hsc : w.nav.isScrolling <;>
      simp [step, handleScroll, isDesktop, Nat.not_le.mpr hd, htg, hm, hpm, hsc, hcfg,
            CONFIG, handleScrollEnd, setScrollingState, showToggle, hideToggleWithDelay,
            cancelHideTimer, mapToggle, toggleAutoHidden, hht] <;>
      split_ifs <;> simp_all
  · intro w y d hcfg hd ht hm hpm hht hup
    obtain ⟨tg, htg⟩ := Option.isSome_iff_exists.mp ht
    simp [CONFIG] at hup
    cases hsc : w.nav.isScrolling <;>
      simp [step, handleScroll, isDesktop, Nat.not_le.mpr hd, htg, hm, hpm, hsc, hcfg,
            CONFIG, handleScrollEnd, setScrollingState, showToggle, hideToggleWithDelay,
            cancelHideTimer, mapToggle, toggleAutoHidden] <;>
      split_ifs <;> simp_all <;> try omega

/-- Witness for C4: scrolling 0 → 120 arms the 150 ms hide (and the iff's
conditions hold); from the resulting pending-hide state, scrolling back
120 → 40 cancels it and the toggle stays visible. -/
theorem C4_hide_scheduling_iff_witness :
    ((step (Event.scroll 120) baseWorld).nav.hideTimer = some CONFIG.autoHideDelay ↔
      ((CONFIG.scrollDelta : Int) < (120 : Int) - (baseWorld.nav.lastScrollY : Int) ∧
       CONFIG.scrollThreshold < 120 ∧ ¬ (120 : Nat) < CONFIG.topThreshold)) ∧
    ((step (Event.scroll 40) (step (Event.scroll 120) baseWorld)).nav.hideTimer = none ∧
     toggleAutoHidden (step (Event.scroll 40) (step (Event.scroll 120) baseWorld)).dom = false) :=
  ⟨C4_hide_scheduling_iff.1 baseWorld 120 (by decide) (by decide) (by decide)
      (by decide) (by decide) (by decide),
   C4_hide_scheduling_iff.2 (step (Event.scroll 120) baseWorld) 40 150 (by decide) (by decide)
      (by decide) (by decide) (by decide) (by decide) (by decide)⟩
/-- C6 (amended): a resize evaluation that lands at desktop width — from
any pre-state, including a mobile one with the menu open (the crossing
case) — forces `menuOpen` false and clears the `open`/`visible`,
`active`, `nav-open` and `auto-hidden` classes, and a scroll evaluation
on a desktop viewport is a complete no-op; however, the desktop reset
does **not** cancel a hide timer scheduled before it — `state.hideTimer`
survives the resize unchanged (so its later firing can still add
`auto-hidden`). -/
theorem C6_desktop_reset :
    (∀ (w : World) (width : Nat), 1025 ≤ width →
      w.dom.toggle.isSome = true → w.dom.sidebar.isSome = true →
      w.dom.overlay.isSome = true → w.dom.body.isSome = true →
      ((step (Event.resize width) w).nav.menuOpen = false ∧
       sidebarOpenCls (step (Event.resize width) w).dom = some false ∧
       sidebarVisibleCls (step (Event.resize width) w).dom = some false ∧
       overlayActiveCls (step (Event.resize width) w).dom = some false ∧
       bodyNavOpen (step (Event.resize width) w).dom = some false ∧
       toggleAutoHidden (step (Event.resize width) w).dom = false ∧
       toggleAriaExpanded (step (Event.resize width) w).dom = some "false" ∧
       (step (Event.resize width) w).nav.hideTimer = w.nav.hideTimer)) ∧
    (∀ (w : World) (y : Nat), 1025 ≤ w.innerWidth →
      step (Event.scroll y) w = { w with scrollY := y }) := by
  constructor
  · intro w width hw ht hs ho hb
    obtain ⟨tg, htg⟩ := Option.isSome_iff_exists.mp ht
    obtain ⟨sb, hsb⟩ := Option.isSome_iff_exists.mp hs
    obtain ⟨ov, hov⟩ := Option.isSome_iff_exists.mp ho
    obtain ⟨bd, hbd⟩ := Option.isSome_iff_exists.mp hb
    simp [step, handleResize, isDesktop, hw,
          mapToggle, mapSidebar, mapOverlay, mapBody,
          sidebarOpenCls, sidebarVisibleCls, overlayActiveCls, bodyNavOpen,
          toggleAutoHidden, toggleAriaExpanded, htg, hsb, hov, hbd]
  · intro w y hdw
    simp [step, handleScroll, isDesktop, hdw]

/-- Witness for C6 (amended): a mobile pre-state with the menu open and a
hide timer pending crosses to desktop width 1100 — the reset closes the
menu and clears every class yet leaves the timer armed — and a scroll on
a desktop viewport changes nothing but the offset. -/
theorem C6_desktop_reset_witness :
    ((step (Event.resize 1100) crossingWorld).nav.menuOpen = false ∧
     sidebarOpenCls (step (Event.resize 1100) crossingWorld).dom = some false ∧
     sidebarVisibleCls (step (Event.resize 1100) crossingWorld).dom = some false ∧
     overlayActiveCls (step (Event.resize 1100) crossingWorld).dom = some false ∧
     bodyNavOpen (step (Event.resize 1100) crossingWorld).dom = some false ∧
     toggleAutoHidden (step (Event.resize 1100) crossingWorld).dom = false ∧
     toggleAriaExpanded (step (Event.resize 1100) crossingWorld).dom = some "false" ∧
     (step (Event.resize 1100) crossingWorld).nav.hideTimer = crossingWorld.nav.hideTimer) ∧
    step (Event.scroll 500) desktopWorld = { desktopWorld with scrollY := 500 } :=
  ⟨C6_desktop_reset.1 crossingWorld 1100 (by decide) (by decide) (by decide)
      (by decide) (by decide),
   C6_desktop_reset.2 desktopWorld 500 (by decide)⟩

/-- Counterexample to C6 as stated: starting mobile, a down-scroll to 120
arms the hide timer; resizing to desktop width 1100 clears `auto-hidden`
but leaves the timer pending, and when the timer then fires — with the
viewport still desktop — the toggle gains `auto-hidden` after all. -/
theorem C6_desktop_counterexample :
    (run [Event.scroll 120, Event.resize 1100] baseWorld).nav.hideTimer = some 150 ∧
    1025 ≤ (run [Event.scroll 120, Event.resize 1100] baseWorld).innerWidth ∧
    toggleAutoHidden (run [Event.scroll 120, Event.resize 1100] baseWorld).dom = false ∧
    1025 ≤ (run [Event.scroll 120, Event.resize 1100, Event.fireHide] baseWorld).innerWidth ∧
    toggleAutoHidden (run [Event.scroll 120, Event.resize 1100, Event.fireHide] baseWorld).dom
      = true := by
  decide
theorem tickStep_inv (e : TickEvent) (s : TickState)
    (h : s.queuedFrames = if s.ticking then 1 else 0) :
    (tickStep e s).queuedFrames = if (tickStep e s).ticking then 1 else 0 := by
  cases e <;> cases hts : s.ticking <;> simp [hts] at h <;>
    simp [tickStep, onScroll, animationFrame, hts, h]

theorem runTick_inv (t : List TickEvent) (s : TickState)
    (h : s.queuedFrames = if s.ticking then 1 else 0) :
    (runTick t s).queuedFrames = if (runTick t s).ticking then 1 else 0 := by
  induction t generalizing s with
  | nil => exact h
  | cons e rest ih => exact ih (tickStep e s) (tickStep_inv e s h)

/-- C7: at most one scroll evaluation is ever queued per animation frame —
from the initial state, along any sequence of scroll arrivals and frame
firings, the number of queued frames is 1 exactly when `state.ticking` is
set (so never more than one), and a scroll arriving while `ticking` is set
schedules nothing at all; the flag is cleared only by the frame callback
after it runs the evaluation. -/
theorem C7_scroll_coalescing :
    (∀ t : List TickEvent,
      (runTick t tickInit).queuedFrames =
        if (runTick t tickInit).ticking then 1 else 0) ∧
    (∀ s : TickState, s.ticking = true → onScroll s = s) := by
  constructor
  · intro t
    exact runTick_inv t tickInit rfl
  · intro s hs
    simp [onScroll, hs]

/-- Witness for C7: a concrete burst of two scroll arrivals and a frame. -/
theorem C7_scroll_coalescing_witness :
    ((runTick [TickEvent.scrollArrives, TickEvent.scrollArrives, TickEvent.frameFires]
        tickInit).queuedFrames =
      if (runTick [TickEvent.scrollArrives, TickEvent.scrollArrives, TickEvent.frameFires]
        tickInit).ticking then 1 else 0) ∧
    onScroll { ticking := true, queuedFrames := 1 } = { ticking := true, queuedFrames := 1 } :=
  ⟨C7_scroll_coalescing.1 [TickEvent.scrollArrives, TickEvent.scrollArrives,
      TickEvent.frameFires],
   C7_scroll_coalescing.2 { ticking := true, queuedFrames := 1 } rfl⟩

/-- C8: with neither the toggle nor the sidebar present, `init` only warns
— it attaches no listeners and writes nothing to the DOM; and on a DOM in
which every lookup failed, every operation of the component leaves the DOM
exactly as it was (all operations are total functions — nothing throws). -/
theorem C8_absent_elements_are_noops :
    (∀ (cfg : Config) (y width : Nat) (rm : Bool),
      (init cfg emptyDom y width rm).warned = true ∧
      (init cfg emptyDom y width rm).attached = false ∧
      (init cfg emptyDom y width rm).world.dom = emptyDom) ∧
    (∀ w : World, w.dom = emptyDom →
      (openMenu w).dom = emptyDom ∧
      (closeMenu w).dom = emptyDom ∧
      (∀ delay : Nat, (showToggle delay w).dom = emptyDom) ∧
      (hideToggleWithDelay w).dom = emptyDom ∧
      (handleScroll w).dom = emptyDom ∧
      (handleResize w).dom = emptyDom ∧
      (∀ e : Event, (step e w).dom = emptyDom)) := by
  constructor
  · intro cfg y width rm
    simp [init, emptyDom]
  · intro w h
    refine ⟨?_, ?_, ?_, ?_, ?_, ?_, ?_⟩
    · simp [openMenu, showToggle, cancelHideTimer, mapToggle, mapSidebar,
            mapOverlay, mapBody, h, emptyDom]
    · simp [closeMenu, mapToggle, mapSidebar, mapOverlay, mapBody, setFocus,
            h, emptyDom]
    · intro delay
      simp [showToggle, cancelHideTimer, h, emptyDom]
    · simp [hideToggleWithDelay, h, emptyDom]
    · simp [handleScroll, h, emptyDom]
    · simp [handleResize, mapToggle, mapSidebar, mapOverlay, mapBody, h, emptyDom]
      repeat' split
      all_goals simp [h, emptyDom]
    · intro e
      cases e
      case keydown k ks =>
        cases k <;> cases hmo : w.nav.menuOpen <;>
          simp [step, keydownStep, handleKeydown, defaultTabMove, firstFocusable,
                lastFocusable, focusedEq, setFocus, closeMenu, mapToggle,
                mapSidebar, mapOverlay, mapBody, h, hmo, emptyDom]
      all_goals
        simp [step, toggleMenu, handleOrientationChange, handleResize,
              handleScroll, closeMenu, fireHideTimer, fireShowTimer,
              fireFocusTimer, fireScrollingTimer, setScrollingState, setFocus,
              mapToggle, mapSidebar, mapOverlay, mapBody, h, emptyDom]
      all_goals repeat' split
      all_goals simp [h, emptyDom]

/-- Witness for C8: the all-absent DOM world itself. -/
theorem C8_absent_elements_are_noops_witness :
    ((init CONFIG emptyDom 0 500 false).warned = true ∧
     (init CONFIG emptyDom 0 500 false).attached = false ∧
     (init CONFIG emptyDom 0 500 false).world.dom = emptyDom) ∧
    ((openMenu (init CONFIG emptyDom 0 500 false).world).dom = emptyDom ∧
     (closeMenu (init CONFIG emptyDom 0 500 false).world).dom = emptyDom ∧
     (handleScroll (init CONFIG emptyDom 0 500 false).world).dom = emptyDom) :=
  ⟨C8_absent_elements_are_noops.1 CONFIG 0 500 false,
   (fun h2 => ⟨h2.1, h2.2.1, h2.2.2.2.2.1⟩)
     (C8_absent_elements_are_noops.2 (init CONFIG emptyDom 0 500 false).world (by decide))⟩
/-- C9: while the menu is open (toggle present, at least one nav item, and
focus inside the trap set), a Tab keydown keeps focus inside the set of
the toggle plus the nav items; Tab from the last nav item wraps to the
toggle, Shift+Tab from the toggle wraps to the last nav item, and Escape
always closes the menu. -/
theorem C9_keyboard_trap (w : World) (shift : Bool)
    (hm : w.nav.menuOpen = true) (ht : w.dom.toggle.isSome = true)
    (hn : 0 < w.dom.navItemsCount)
    (hf : inFocusSet w.dom w.dom.focused = true) :
    inFocusSet (keydownStep Key.tab shift w).dom
      (keydownStep Key.tab shift w).dom.focused = true ∧
    (shift = false → w.dom.focused = FocusTarget.navItem (w.dom.navItemsCount - 1) →
      (keydownStep Key.tab shift w).dom.focused = FocusTarget.toggle) ∧
    (shift = true → w.dom.focused = FocusTarget.toggle →
      (keydownStep Key.tab shift w).dom.focused =
        FocusTarget.navItem (w.dom.navItemsCount - 1)) ∧
    (keydownStep Key.escape false w).nav.menuOpen = false := by
  obtain ⟨tg, htg⟩ := Option.isSome_iff_exists.mp ht
  have hesc : (keydownStep Key.escape false w).nav.menuOpen = false := by
    simp [keydownStep, handleKeydown, hm, (closeMenu_proj w).1]
  have hc0 : ¬ w.dom.navItemsCount = 0 := by omega
  refine ⟨?_, ?_, ?_, hesc⟩
  · rcases hfoc : w.dom.focused with _ | i | _
    · cases shift <;>
        simp [keydownStep, handleKeydown, firstFocusable, lastFocusable, focusedEq,
              defaultTabMove, setFocus, inFocusSet, hm, htg, hc0, hn, hfoc]
    · have hi2 : i < w.dom.navItemsCount := by
        simpa [inFocusSet, hfoc] using hf
      cases shift
      · by_cases hi : i = w.dom.navItemsCount - 1
        · simp [keydownStep, handleKeydown, firstFocusable, lastFocusable, focusedEq,
                defaultTabMove, setFocus, inFocusSet, hm, htg, hc0, hfoc, hi]
        · have hq : i + 1 < w.dom.navItemsCount := by omega
          simp [keydownStep, handleKeydown, firstFocusable, lastFocusable, focusedEq,
                defaultTabMove, setFocus, inFocusSet, hm, htg, hc0, hfoc, hi, hq]
      · by_cases hz : i = 0
        · simp [keydownStep, handleKeydown, firstFocusable, lastFocusable, focusedEq,
                defaultTabMove, setFocus, inFocusSet, hm, htg, hc0, hfoc, hz]
        · have hq : i - 1 < w.dom.navItemsCount := by omega
          simp [keydownStep, handleKeydown, firstFocusable, lastFocusable, focusedEq,
                defaultTabMove, setFocus, inFocusSet, hm, htg, hc0, hfoc, hz, hq]
    · simp [inFocusSet, hfoc] at hf
  · intro hs hp
    subst hs
    simp [keydownStep, handleKeydown, firstFocusable, lastFocusable, focusedEq,
          defaultTabMove, setFocus, hm, htg, hc0, hp]
  · intro hs hp
    subst hs
    simp [keydownStep, handleKeydown, firstFocusable, lastFocusable, focusedEq,
          defaultTabMove, setFocus, hm, htg, hc0, hp]

/-- Witness for C9: with three nav items, Tab from nav item 2 wraps to the
toggle, Shift+Tab from the toggle wraps to nav item 2, Escape closes. -/
theorem C9_keyboard_trap_witness :
    (inFocusSet (keydownStep Key.tab false openMenuWorldLast).dom
       (keydownStep Key.tab false openMenuWorldLast).dom.focused = true ∧
     (keydownStep Key.tab false openMenuWorldLast).dom.focused = FocusTarget.toggle ∧
     (keydownStep Key.escape false openMenuWorldLast).nav.menuOpen = false) ∧
    (keydownStep Key.tab true openMenuWorldToggle).dom.focused = FocusTarget.navItem 2 := by
  obtain ⟨a1, a2, -, a4⟩ := C9_keyboard_trap openMenuWorldLast false
    (by decide) (by decide) (by decide) (by decide)
  obtain ⟨-, -, b3, -⟩ := C9_keyboard_trap openMenuWorldToggle true
    (by decide) (by decide) (by decide) (by decide)
  exact ⟨⟨a1, a2 rfl (by decide), a4⟩, b3 rfl (by decide)⟩
/-- C10: the repository ships two different global `toggleSidebar` entry
points. At the same mobile-width state with the menu closed, common.js's
`toggleSidebar` only toggles the sidebar `open` class and the overlay
`active` class — it leaves `aria-expanded`, the body `nav-open` lock, the
controller's `menuOpen` flag and the saved scroll offset untouched and
does not add the `visible` class — while navbar.js's `toggleMenu` (the
`window.toggleSidebar` export) performs the full open transition. They
are not behaviorally equivalent, so which one a page gets depends on
which script's definition wins. -/
theorem C10_two_toggle_entry_points :
    CommonJs.toggleSidebar { baseWorld with scrollY := 77 }.dom ≠
      (toggleMenu { baseWorld with scrollY := 77 }).dom ∧
    sidebarOpenCls (CommonJs.toggleSidebar { baseWorld with scrollY := 77 }.dom) = some true ∧
    sidebarOpenCls (toggleMenu { baseWorld with scrollY := 77 }).dom = some true ∧
    sidebarVisibleCls (CommonJs.toggleSidebar { baseWorld with scrollY := 77 }.dom) = some false ∧
    sidebarVisibleCls (toggleMenu { baseWorld with scrollY := 77 }).dom = some true ∧
    overlayActiveCls (CommonJs.toggleSidebar { baseWorld with scrollY := 77 }.dom) = some true ∧
    bodyNavOpen (CommonJs.toggleSidebar { baseWorld with scrollY := 77 }.dom) = some false ∧
    bodyNavOpen (toggleMenu { baseWorld with scrollY := 77 }).dom = some true ∧
    toggleAriaExpanded (CommonJs.toggleSidebar { baseWorld with scrollY := 77 }.dom) =
      some "false" ∧
    toggleAriaExpanded (toggleMenu { baseWorld with scrollY := 77 }).dom = some "true" ∧
    (toggleMenu { baseWorld with scrollY := 77 }).nav.menuOpen = true ∧
    { baseWorld with scrollY := 77 }.nav.menuOpen = false ∧
    (toggleMenu { baseWorld with scrollY := 77 }).nav.scrollPosition = 77 := by
  decide
